import Mathlib

/-!
Shallow embedding of the chainflip market-maker quoting client
(`packages/swap/python-client/quoter.py`).

The Python client is a `socketio.AsyncClient`-based session:

* `Quoter.connect` builds a signed authentication payload
  (`client_version`, `timestamp`, `market_maker_id`, base64 `signature`)
  and opens the channel with it;
* the `connect` event handler sets `self.connected = True` and calls the
  integrator hook `self.on_connect()`;
* each `quote_request` event is decoded into a `Quote`
  (raising on a missing key), handled by `on_quote_request`, and answered
  via `send_quote`, which emits `quote_response` only when
  `self.connected and self.sio is not None`;
* `disconnect` closes the channel and clears `connected` when
  `self.connected and self.sio is not None`.

JSON-like wire payloads are modelled as association lists
`List (String × String)` (all fields of the quoting protocol are strings),
byte strings as `List Nat`, and the channel (`socketio.AsyncClient`) as a
record of observable effects: the auth payload presented, whether
`sio.connect` was awaited, the list of emitted events, and whether
`sio.disconnect` was requested.
-/

namespace Quoting

/-- UTF-8 encoding of one scalar value, modelling Python
`bytes(s, "utf-8")` character by character. -/
def utf8CharBytes (c : Char) : List Nat :=
  let v := c.toNat
  if v < 0x80 then [v]
  else if v < 0x800 then [0xC0 + v / 64, 0x80 + v % 64]
  else if v < 0x10000 then [0xE0 + v / 4096, 0x80 + v / 64 % 64, 0x80 + v % 64]
  else [0xF0 + v / 262144, 0x80 + v / 4096 % 64, 0x80 + v / 64 % 64, 0x80 + v % 64]

/-- Python `bytes(s, "utf-8")`. -/
def strBytes (s : String) : List Nat :=
  s.data.flatMap utf8CharBytes

/-- Python `b"%b%b" % (a, b)`: byte-string formatting of two byte strings,
which is their concatenation. -/
def percentBB (a b : List Nat) : List Nat := a ++ b

/-- Python `str(n)` on a non-negative integer: its decimal string. -/
def pyStr (n : Nat) : String :=
  if n = 0 then "0" else ⟨((Nat.digits 10 n).map Nat.digitChar).reverse⟩

/-- The byte string the client signs:
`b"%b%b" % (bytes(market_maker_id, "utf-8"), bytes(str(timestamp), "utf-8"))`. -/
def signedPayloadBytes (market_maker_id : String) (timestamp : Nat) : List Nat :=
  percentBB (strBytes market_maker_id) (strBytes (pyStr timestamp))

/-- The base64 alphabet used by `base64.b64encode`. -/
def b64Chars : List Char :=
  "ABCDEFGHIJKLMNOPQRSTUVWXYZabcdefghijklmnopqrstuvwxyz0123456789+/".data

/-- Character for one 6-bit group. -/
def b64Char (n : Nat) : Char := b64Chars.getD n 'A'

/-- Python `base64.b64encode` on a byte string, 3 input bytes per 4 output
characters, `=`-padded. -/
def b64encodeChars : List Nat → List Char
  | [] => []
  | [a] => [b64Char (a / 4), b64Char (a % 4 * 16), '=', '=']
  | [a, b] => [b64Char (a / 4), b64Char (a % 4 * 16 + b / 16), b64Char (b % 16 * 4), '=']
  | a :: b :: c :: rest =>
      b64Char (a / 4) :: b64Char (a % 4 * 16 + b / 16) ::
      b64Char (b % 16 * 4 + c / 64) :: b64Char (c % 64) :: b64encodeChars rest

/-- Python `base64.b64encode(sig).decode("utf-8")`. -/
def b64encode (bs : List Nat) : String := ⟨b64encodeChars bs⟩

/-- A quote request, `Quote.__init__` reading the four required keys. -/
structure Quote where
  id : String
  source_asset : String
  destination_asset : String
  deposit_amount : String
deriving Repr, DecidableEq

/-- Error taxonomy of the spec for a `quote_request` whose payload lacks a
required key (`Quote.__init__` raising `KeyError`). -/
inductive QuoteError where
  | malformedQuote
deriving Repr, DecidableEq

/-- Error taxonomy of the spec for `serialization.load_pem_private_key`
failing: malformed key material, or a required password missing or wrong. -/
inductive SigningError where
  | badKeyMaterial
  | badPassword
deriving Repr, DecidableEq

/-- Python dict lookup on a string-valued JSON object. -/
def jsonGet (json : List (String × String)) (k : String) : Option String :=
  (json.find? (fun p => p.1 == k)).map (fun p => p.2)

/-- Decoding `Quote(data)`: reads `id`, `source_asset`, `destination_asset`,
`deposit_amount`; any missing key raises (`MalformedQuoteError` in the
spec's taxonomy). -/
def decodeQuote (json : List (String × String)) : Except QuoteError Quote :=
  match jsonGet json "id", jsonGet json "source_asset",
        jsonGet json "destination_asset", jsonGet json "deposit_amount" with
  | some i, some s, some d, some a =>
      .ok { id := i, source_asset := s, destination_asset := d, deposit_amount := a }
  | _, _, _, _ => .error .malformedQuote

/-- The wire object `send_quote` is called with in the `quote_request`
handler: `{"id": quote.id, "intermediate_amount": ..., "egress_amount": ...}`. -/
def quoteResponseWire (q : Quote) (intermediate_amount egress_amount : String) :
    List (String × String) :=
  [("id", q.id), ("intermediate_amount", intermediate_amount),
   ("egress_amount", egress_amount)]

/-- The authentication payload passed as `auth=` to `sio.connect`. -/
structure AuthPayload where
  client_version : String
  timestamp : Nat
  market_maker_id : String
  signature : String
deriving Repr, DecidableEq

/-- Observable state of the `socketio.AsyncClient` held in `self.sio`:
whether `sio.connect(url, auth=...)` was awaited and with which auth
payload, the events emitted so far, and whether `sio.disconnect()` was
requested. -/
structure SioState where
  connectCalled : Bool
  auth : Option AuthPayload
  emitted : List (String × List (String × String))
  closed : Bool
deriving Repr, DecidableEq

/-- A freshly constructed `socketio.AsyncClient()`. -/
def freshSio : SioState :=
  { connectCalled := false, auth := none, emitted := [], closed := false }

/-- State of one `Quoter` instance: the `connected` class attribute, the
optional `sio` client, plus two observation logs — `pending` holds the
quote handlers in flight, and `hookLog` records, for each `on_connect()`
invocation, the value `self.connected` had at that moment. -/
structure QuoterState where
  connected : Bool
  sio : Option SioState
  pending : List Quote
  hookLog : List Bool
deriving Repr, DecidableEq

/-- The initial attribute values of `Quoter`:
`connected = False`, `sio: Optional[socketio.AsyncClient] = None`. -/
def initState : QuoterState :=
  { connected := false, sio := none, pending := [], hookLog := [] }

/-- Events emitted on the instance's current channel (empty when
`sio is None`). -/
def emittedOf (s : QuoterState) : List (String × List (String × String)) :=
  match s.sio with
  | some c => c.emitted
  | none => []

/-- Method `Quoter.send_quote(response)`:
`if self.connected and self.sio is not None: await self.sio.emit("quote_response", response)`. -/
def sendQuote (s : QuoterState) (response : List (String × String)) : QuoterState :=
  if s.connected then
    match s.sio with
    | some c =>
        { s with sio := some { c with emitted := c.emitted ++ [("quote_response", response)] } }
    | none => s
  else s

/-- The `connect` event handler registered on `self.sio`:
`self.connected = True` and then `self.on_connect()`.  The hook invocation
is recorded in `hookLog` together with the value of `self.connected` at
the moment the hook runs. -/
def connectEventStep (s : QuoterState) : QuoterState :=
  let s1 := { s with connected := true }
  { s1 with hookLog := s1.hookLog ++ [s1.connected] }

/-- Receipt of one `quote_request` event.  The socketio client dispatches
each event handler as its own asyncio task (`asyncio.ensure_future`), so
receipt only decodes the payload and records an in-flight handler; the
handler's completion is a separate step.  The task dispatch itself is
modelled from the spec: "invoke the QuoteHandler asynchronously, allowing
multiple quote requests to be processed concurrently without blocking
receipt of further events" — the dispatching code lives in the external
socketio library, not in this repository.  A payload with a missing key
makes `Quote(data)` raise inside that one task; the session state is
untouched. -/
def receiveQuoteRequest (s : QuoterState) (data : List (String × String)) : QuoterState :=
  match decodeQuote data with
  | .error _ => s
  | .ok q => { s with pending := s.pending ++ [q] }

/-- Completion of the in-flight handler at index `i`: `on_quote_request`
returns `(intermediate_amount, egress_amount)` and the handler body calls
`send_quote` with the response wire object, read against the CURRENT
session state. -/
def completeHandler (handler : Quote → String × String) (s : QuoterState) (i : Nat) :
    QuoterState :=
  match s.pending[i]? with
  | none => s
  | some q =>
      let r := handler q
      let s1 := { s with pending := s.pending.eraseIdx i }
      sendQuote s1 (quoteResponseWire q r.1 r.2)

/-- Method `Quoter.disconnect()`:
`if self.connected and self.sio is not None: await self.sio.disconnect(); self.connected = False`. -/
def disconnectStep (s : QuoterState) : QuoterState :=
  if s.connected then
    match s.sio with
    | some c => { s with connected := false, sio := some { c with closed := true } }
    | none => s
  else s

/-- Abstract private-key handle returned by a successful
`load_pem_private_key`; the signing primitive over it is a parameter of
the model. -/
abbrev SigKey : Type := Nat

/-- The body of `Quoter.connect` up to and including `sio.connect`:
assign `self.sio = socketio.AsyncClient()`, load the private key
(`load_pem_private_key`, whose outcome on the given key bytes and password
is the `loadKey` argument), sign
`b"%b%b" % (bytes(market_maker_id, "utf-8"), bytes(str(timestamp), "utf-8"))`,
and present the auth payload to the channel.  A key-loading failure
raises before `sio.connect` is ever awaited. -/
def connectAttempt (s : QuoterState) (market_maker_id : String)
    (loadKey : Except SigningError SigKey) (sign : SigKey → List Nat → List Nat)
    (nowMs : Nat) : QuoterState × Except SigningError AuthPayload :=
  let s1 := { s with sio := some freshSio }
  match loadKey with
  | .error e => (s1, .error e)
  | .ok key =>
      let payload : AuthPayload :=
        { client_version := "1"
          timestamp := nowMs
          market_maker_id := market_maker_id
          signature := b64encode (sign key (signedPayloadBytes market_maker_id nowMs)) }
      ({ s1 with sio := some { freshSio with connectCalled := true, auth := some payload } },
       .ok payload)

/-- One observable event in the life of a connected-side `Quoter`:
the channel's `connect` event, receipt of a `quote_request` payload,
completion of the in-flight handler at an index, or a `disconnect()`
call. -/
inductive Ev where
  | connectEv
  | quoteReq (data : List (String × String))
  | complete (i : Nat)
  | disconnectEv
deriving Repr, DecidableEq

/-- Interpretation of one event on the quoter state. -/
def step (handler : Quote → String × String) (s : QuoterState) : Ev → QuoterState
  | .connectEv => connectEventStep s
  | .quoteReq data => receiveQuoteRequest s data
  | .complete i => completeHandler handler s i
  | .disconnectEv => disconnectStep s

/-- Run a sequence of events. -/
def run (handler : Quote → String × String) (s : QuoterState) (evs : List Ev) : QuoterState :=
  evs.foldl (step handler) s

/-- Whether the channel's `connect` event can fire: `self.sio` exists and
`sio.connect` was actually awaited on it. -/
def connectEventEnabled (s : QuoterState) : Bool :=
  match s.sio with
  | some c => c.connectCalled
  | none => false

/-- States of a `Quoter` instance reachable from the initial attribute
values by connect attempts, channel `connect` events (which only an
opened channel delivers), `quote_request` receipt, handler completion,
and `disconnect()` calls. -/
inductive Reachable (handler : Quote → String × String) : QuoterState → Prop where
  | init : Reachable handler initState
  | connectAtt (s : QuoterState) (mmid : String) (lk : Except SigningError SigKey)
      (sign : SigKey → List Nat → List Nat) (now : Nat) :
      Reachable handler s → Reachable handler (connectAttempt s mmid lk sign now).1
  | connectEv (s : QuoterState) : Reachable handler s →
      connectEventEnabled s = true → Reachable handler (connectEventStep s)
  | quoteReq (s : QuoterState) (data : List (String × String)) :
      Reachable handler s → Reachable handler (receiveQuoteRequest s data)
  | complete (s : QuoterState) (i : Nat) :
      Reachable handler s → Reachable handler (completeHandler handler s i)
  | disconnect (s : QuoterState) :
      Reachable handler s → Reachable handler (disconnectStep s)

/-- Predicate for counting channel `connect` events in a trace. -/
def isConnectEv : Ev → Bool
  | .connectEv => true
  | _ => false

/-- The `MockQuoter.on_quote_request` handler from `mock.py`. -/
def mmHandler : Quote → String × String :=
  fun _ => ("2000000000", "1000000000000000000")

/-- A concrete deterministic signing primitive used to exercise the model:
it returns the signed bytes themselves. -/
def exSign : SigKey → List Nat → List Nat := fun _ bs => bs

/-- A concrete connected session: a successful connect attempt followed by
the channel's `connect` event. -/
def exConn : QuoterState :=
  connectEventStep (connectAttempt initState "mm1" (.ok 0) exSign 1700000000000).1

/-- A well-formed `quote_request` payload. -/
def exGoodData : List (String × String) :=
  [("id", "q1"), ("source_asset", "BTC"), ("destination_asset", "ETH"),
   ("deposit_amount", "250000")]

/-- The `Quote` decoded from `exGoodData`. -/
def exQuote : Quote :=
  { id := "q1", source_asset := "BTC", destination_asset := "ETH",
    deposit_amount := "250000" }

/-- A `quote_request` payload with `deposit_amount` absent. -/
def exBadData : List (String × String) :=
  [("id", "q1"), ("source_asset", "BTC"), ("destination_asset", "ETH")]

/-- A second well-formed `quote_request` payload. -/
def exGoodData2 : List (String × String) :=
  [("id", "q2"), ("source_asset", "ETH"), ("destination_asset", "USDC"),
   ("deposit_amount", "42")]

/-- The `Quote` decoded from `exGoodData2`. -/
def exQuote2 : Quote :=
  { id := "q2", source_asset := "ETH", destination_asset := "USDC",
    deposit_amount := "42" }

/-- A concrete connected state with one in-flight quote handler. -/
def exPendingState : QuoterState :=
  { connected := true, sio := some freshSio, pending := [exQuote], hookLog := [] }

/-! ## Basic facts about the step functions -/

theorem sendQuote_connected (s : QuoterState) (r : List (String × String)) :
    (sendQuote s r).connected = s.connected := by
  unfold sendQuote
  split
  · cases hs : s.sio <;> simp [hs]
  · rfl

theorem sendQuote_sio_isSome (s : QuoterState) (r : List (String × String)) :
    (sendQuote s r).sio.isSome = s.sio.isSome := by
  unfold sendQuote
  split
  · cases hs : s.sio <;> simp [hs]
  · rfl

theorem sendQuote_hookLog (s : QuoterState) (r : List (String × String)) :
    (sendQuote s r).hookLog = s.hookLog := by
  unfold sendQuote
  split
  · cases hs : s.sio <;> simp [hs]
  · rfl

theorem sendQuote_not_connected (s : QuoterState) (r : List (String × String))
    (h : s.connected = false) : sendQuote s r = s := by
  unfold sendQuote
  simp [h]

theorem sendQuote_emitted (s : QuoterState) (c : SioState) (r : List (String × String))
    (hconn : s.connected = true) (hsio : s.sio = some c) :
    emittedOf (sendQuote s r) = emittedOf s ++ [("quote_response", r)] := by
  unfold sendQuote emittedOf
  simp [hconn, hsio]

theorem completeHandler_hookLog (handler : Quote → String × String) (s : QuoterState)
    (i : Nat) : (completeHandler handler s i).hookLog = s.hookLog := by
  unfold completeHandler
  split
  · rfl
  · rw [sendQuote_hookLog]

theorem completeHandler_connected (handler : Quote → String × String) (s : QuoterState)
    (i : Nat) : (completeHandler handler s i).connected = s.connected := by
  unfold completeHandler
  split
  · rfl
  · rw [sendQuote_connected]

theorem completeHandler_sio_isSome (handler : Quote → String × String) (s : QuoterState)
    (i : Nat) : (completeHandler handler s i).sio.isSome = s.sio.isSome := by
  unfold completeHandler
  split
  · rfl
  · rw [sendQuote_sio_isSome]

theorem receiveQuoteRequest_hookLog (s : QuoterState) (data : List (String × String)) :
    (receiveQuoteRequest s data).hookLog = s.hookLog := by
  unfold receiveQuoteRequest
  split <;> rfl

theorem receiveQuoteRequest_connected (s : QuoterState) (data : List (String × String)) :
    (receiveQuoteRequest s data).connected = s.connected := by
  unfold receiveQuoteRequest
  split <;> rfl

theorem receiveQuoteRequest_sio (s : QuoterState) (data : List (String × String)) :
    (receiveQuoteRequest s data).sio = s.sio := by
  unfold receiveQuoteRequest
  split <;> rfl

theorem disconnectStep_hookLog (s : QuoterState) :
    (disconnectStep s).hookLog = s.hookLog := by
  unfold disconnectStep
  split
  · cases hs : s.sio <;> simp [hs]
  · rfl

theorem connectEventStep_hookLog (s : QuoterState) :
    (connectEventStep s).hookLog = s.hookLog ++ [true] := rfl

theorem disconnectStep_of_not_connected (s : QuoterState) (h : s.connected = false) :
    disconnectStep s = s := by
  unfold disconnectStep
  simp [h]

theorem disconnectStep_of_sio_none (s : QuoterState) (hs : s.sio = none) :
    disconnectStep s = s := by
  unfold disconnectStep
  split
  · rw [hs]
  · rfl

theorem disconnectStep_of_connected (s : QuoterState) (c : SioState)
    (hco : s.connected = true) (hs : s.sio = some c) :
    disconnectStep s = { s with connected := false, sio := some { c with closed := true } } := by
  unfold disconnectStep
  rw [if_pos hco, hs]

/-- Class invariant of `Quoter`: in every reachable state, a `True`
`connected` flag comes with a live `sio` client. -/
theorem connected_imp_sio {handler : Quote → String × String} {s : QuoterState}
    (h : Reachable handler s) : s.connected = true → s.sio.isSome = true := by
  induction h with
  | init => intro hc; simp [initState] at hc
  | connectAtt s mmid lk sign now _ _ =>
      intro _
      cases lk <;> simp [connectAttempt]
  | connectEv s _ hen _ =>
      intro _
      unfold connectEventEnabled at hen
      unfold connectEventStep
      cases hs : s.sio with
      | none => rw [hs] at hen; simp at hen
      | some c => simp [hs]
  | quoteReq s data _ ih =>
      intro hc
      rw [receiveQuoteRequest_connected] at hc
      rw [receiveQuoteRequest_sio]
      exact ih hc
  | complete s i _ ih =>
      intro hc
      rw [completeHandler_connected] at hc
      rw [completeHandler_sio_isSome]
      exact ih hc
  | disconnect s _ ih =>
      intro hc
      unfold disconnectStep at hc ⊢
      by_cases hco : s.connected = true
      · rw [if_pos hco] at hc ⊢
        cases hs : s.sio with
        | none =>
            have h2 := ih hco
            rw [hs] at h2
            simp at h2
        | some c => rw [hs] at hc; simp at hc
      · rw [if_neg hco] at hc ⊢
        exact ih hc

theorem step_hookLog_non_connect (handler : Quote → String × String) (s : QuoterState)
    (e : Ev) (he : isConnectEv e = false) : (step handler s e).hookLog = s.hookLog := by
  cases e with
  | connectEv => simp [isConnectEv] at he
  | quoteReq d => exact receiveQuoteRequest_hookLog s d
  | complete i => exact completeHandler_hookLog handler s i
  | disconnectEv => exact disconnectStep_hookLog s

/-- Over any event trace, the `on_connect` hook log grows by exactly one
`true` entry per channel `connect` event. -/
theorem run_hookLog (handler : Quote → String × String) (evs : List Ev) (s : QuoterState) :
    (run handler s evs).hookLog =
      s.hookLog ++ List.replicate (evs.countP isConnectEv) true := by
  induction evs generalizing s with
  | nil => simp [run]
  | cons e evs ih =>
      have hrun : run handler s (e :: evs) = run handler (step handler s e) evs := rfl
      rw [hrun, ih]
      cases e with
      | connectEv =>
          rw [show step handler s .connectEv = connectEventStep s from rfl,
              connectEventStep_hookLog]
          simp [List.countP_cons, isConnectEv, List.replicate_succ]
      | quoteReq d =>
          rw [step_hookLog_non_connect handler s (.quoteReq d) rfl]
          simp [List.countP_cons, isConnectEv]
      | complete i =>
          rw [step_hookLog_non_connect handler s (.complete i) rfl]
          simp [List.countP_cons, isConnectEv]
      | disconnectEv =>
          rw [step_hookLog_non_connect handler s .disconnectEv rfl]
          simp [List.countP_cons, isConnectEv]

/-! ## Claims -/

/-- The concrete connected session is reachable. -/
theorem exConn_reachable : Reachable mmHandler exConn :=
  Reachable.connectEv _
    (Reachable.connectAtt _ "mm1" (.ok 0) exSign 1700000000000 Reachable.init) rfl

/-- C1: a connect call with a valid key presents to the channel exactly the
auth object `{client_version: "1", timestamp: t, market_maker_id,
signature: base64 of the signature}`, where the bytes signed are exactly
the UTF-8 bytes of `market_maker_id` followed immediately (no delimiter)
by the decimal string of `t`. -/
theorem c1_auth_payload_shape (s : QuoterState) (mmid : String) (k : SigKey)
    (sign : SigKey → List Nat → List Nat) (t : Nat) :
    (connectAttempt s mmid (.ok k) sign t).2 =
      .ok { client_version := "1", timestamp := t, market_maker_id := mmid,
            signature := b64encode (sign k (strBytes mmid ++ strBytes (pyStr t))) } ∧
    (connectAttempt s mmid (.ok k) sign t).1.sio =
      some { connectCalled := true,
             auth := some { client_version := "1", timestamp := t, market_maker_id := mmid,
                            signature := b64encode (sign k (strBytes mmid ++ strBytes (pyStr t))) },
             emitted := [], closed := false } :=
  ⟨rfl, rfl⟩

/-- C6: if the private key material is malformed (or a required password is
missing/wrong), connect fails with `SigningError` before any network I/O:
the channel is never opened (`sio.connect` is not awaited, no auth
presented, nothing emitted), the error propagates, `connected` is
untouched, and the channel's `connect` event can never fire on this
client. -/
theorem c6_bad_key_aborts_connect (s : QuoterState) (mmid : String) (e : SigningError)
    (sign : SigKey → List Nat → List Nat) (t : Nat) :
    (connectAttempt s mmid (.error e) sign t).2 = .error e ∧
    (connectAttempt s mmid (.error e) sign t).1.sio = some freshSio ∧
    freshSio.connectCalled = false ∧ freshSio.auth = none ∧ freshSio.emitted = [] ∧
    (connectAttempt s mmid (.error e) sign t).1.connected = s.connected ∧
    connectEventEnabled (connectAttempt s mmid (.error e) sign t).1 = false :=
  ⟨rfl, rfl, rfl, rfl, rfl, rfl, rfl⟩

/-- C10: in every reachable state of a `Quoter` instance,
`connected = true` implies `sio` is not `None`; consequently the combined
guard `connected and sio is not None` of `send_quote` and `disconnect`
coincides with `connected` alone, so the `sio` conjunct is never the sole
reason a send or close is skipped. -/
theorem c10_connected_implies_sio {handler : Quote → String × String} {s : QuoterState}
    (h : Reachable handler s) :
    (s.connected = true → s.sio.isSome = true) ∧
    (s.connected && s.sio.isSome) = s.connected := by
  refine ⟨connected_imp_sio h, ?_⟩
  cases hco : s.connected with
  | false => simp
  | true => simp [connected_imp_sio h hco]

/-- Witness for C10 at the concrete connected session. -/
theorem c10_connected_implies_sio_witness :
    (exConn.connected = true → exConn.sio.isSome = true) ∧
    (exConn.connected && exConn.sio.isSome) = exConn.connected :=
  c10_connected_implies_sio exConn_reachable

/-- C7: `disconnect()` is idempotent: from a reachable state, when
connected it closes the channel and clears `connected`; when already
disconnected it is a no-op; and `disconnect();disconnect()` leaves the
same state as a single `disconnect()`. -/
theorem c7_disconnect_idempotent {handler : Quote → String × String} {s : QuoterState}
    (h : Reachable handler s) :
    disconnectStep (disconnectStep s) = disconnectStep s ∧
    (s.connected = false → disconnectStep s = s) ∧
    (s.connected = true →
      (disconnectStep s).connected = false ∧
      ∃ c, (disconnectStep s).sio = some c ∧ c.closed = true) := by
  have hinv := connected_imp_sio h
  refine ⟨?_, fun hnc => disconnectStep_of_not_connected s hnc, ?_⟩
  · by_cases hco : s.connected = true
    · cases hs : s.sio with
      | none =>
          rw [disconnectStep_of_sio_none s hs]
          exact disconnectStep_of_sio_none s hs
      | some c =>
          rw [disconnectStep_of_connected s c hco hs,
              disconnectStep_of_not_connected _ rfl]
    · have hnc : s.connected = false := by
        cases hb : s.connected
        · rfl
        · exact absurd hb hco
      rw [disconnectStep_of_not_connected s hnc]
      exact disconnectStep_of_not_connected s hnc
  · intro hco
    obtain ⟨c, hs⟩ := Option.isSome_iff_exists.mp (hinv hco)
    rw [disconnectStep_of_connected s c hco hs]
    exact ⟨rfl, _, rfl, rfl⟩

/-- Witness for C7 at the concrete connected session. -/
theorem c7_disconnect_idempotent_witness :
    disconnectStep (disconnectStep exConn) = disconnectStep exConn ∧
    (exConn.connected = false → disconnectStep exConn = exConn) ∧
    (exConn.connected = true →
      (disconnectStep exConn).connected = false ∧
      ∃ c, (disconnectStep exConn).sio = some c ∧ c.closed = true) :=
  c7_disconnect_idempotent exConn_reachable

/-- C2: `send_quote` emits a `quote_response` on the channel iff the
session is currently connected; when not connected the response is
silently dropped (the state is unchanged — nothing queued, nothing
retried, no error), so a handler completing after a disconnect never
causes an emit. -/
theorem c2_send_quote_gated {handler : Quote → String × String} {s : QuoterState}
    (h : Reachable handler s) (r : List (String × String)) :
    emittedOf (sendQuote s r) =
      (if s.connected then emittedOf s ++ [("quote_response", r)] else emittedOf s) ∧
    (s.connected = false → sendQuote s r = s) ∧
    (s.connected = false → ∀ i, emittedOf (completeHandler handler s i) = emittedOf s) := by
  have hinv := connected_imp_sio h
  refine ⟨?_, fun hnc => sendQuote_not_connected s r hnc, ?_⟩
  · by_cases hco : s.connected = true
    · obtain ⟨c, hs⟩ := Option.isSome_iff_exists.mp (hinv hco)
      rw [if_pos hco, sendQuote_emitted s c r hco hs]
    · have hnc : s.connected = false := by
        cases hb : s.connected
        · rfl
        · exact absurd hb hco
      rw [sendQuote_not_connected s r hnc, if_neg]
      rw [hnc]
      simp
  · intro hnc i
    unfold completeHandler
    cases hp : s.pending[i]? with
    | none => rfl
    | some q =>
        show emittedOf (sendQuote { s with pending := s.pending.eraseIdx i }
          (quoteResponseWire q (handler q).1 (handler q).2)) = emittedOf s
        rw [sendQuote_not_connected { s with pending := s.pending.eraseIdx i } _ hnc]
        rfl

/-- Witness for C2 at the concrete connected session. -/
theorem c2_send_quote_gated_witness :
    emittedOf (sendQuote exConn [("id", "q1")]) =
      (if exConn.connected then emittedOf exConn ++ [("quote_response", [("id", "q1")])]
       else emittedOf exConn) ∧
    (exConn.connected = false → sendQuote exConn [("id", "q1")] = exConn) ∧
    (exConn.connected = false →
      ∀ i, emittedOf (completeHandler mmHandler exConn i) = emittedOf exConn) :=
  c2_send_quote_gated exConn_reachable [("id", "q1")]

/-- C3: a `quote_request` payload missing any of the required keys fails
decoding with `MalformedQuoteError`, and only that request fails: no
response is emitted for it and the `Quoter` state — in particular
`connected` — is unchanged. -/
theorem c3_malformed_request_contained (s : QuoterState) (data : List (String × String))
    (hmiss : jsonGet data "id" = none ∨ jsonGet data "source_asset" = none ∨
      jsonGet data "destination_asset" = none ∨ jsonGet data "deposit_amount" = none) :
    decodeQuote data = .error .malformedQuote ∧ receiveQuoteRequest s data = s := by
  have hd : decodeQuote data = .error .malformedQuote := by
    unfold decodeQuote
    cases h1 : jsonGet data "id" <;> cases h2 : jsonGet data "source_asset" <;>
      cases h3 : jsonGet data "destination_asset" <;>
      cases h4 : jsonGet data "deposit_amount" <;> simp_all
  refine ⟨hd, ?_⟩
  unfold receiveQuoteRequest
  rw [hd]

/-- Witness for C3: a payload lacking `deposit_amount`, received in the
concrete connected session, fails alone and leaves the state (still
connected) unchanged. -/
theorem c3_malformed_request_contained_witness :
    jsonGet exBadData "deposit_amount" = none ∧
    (decodeQuote exBadData = .error .malformedQuote ∧
      receiveQuoteRequest exConn exBadData = exConn) ∧
    exConn.connected = true :=
  ⟨rfl,
   c3_malformed_request_contained exConn exBadData (Or.inr (Or.inr (Or.inr rfl))),
   rfl⟩

/-- C4: when the in-flight handler for a decoded `Quote` completes with
`(intermediate_amount, egress_amount)` in a connected session, the emitted
`quote_response` is exactly `{id, intermediate_amount, egress_amount}`
with `id` copied verbatim from the originating `Quote` and the amount
strings passed through unchanged. -/
theorem c4_response_id_matches (handler : Quote → String × String) (s : QuoterState)
    (c : SioState) (i : Nat) (q : Quote) (hconn : s.connected = true)
    (hsio : s.sio = some c) (hq : s.pending[i]? = some q) :
    emittedOf (completeHandler handler s i) =
      emittedOf s ++ [("quote_response", quoteResponseWire q (handler q).1 (handler q).2)] ∧
    quoteResponseWire q (handler q).1 (handler q).2 =
      [("id", q.id), ("intermediate_amount", (handler q).1),
       ("egress_amount", (handler q).2)] ∧
    jsonGet (quoteResponseWire q (handler q).1 (handler q).2) "id" = some q.id := by
  refine ⟨?_, rfl, rfl⟩
  unfold completeHandler
  rw [hq]
  show emittedOf (sendQuote { s with pending := s.pending.eraseIdx i }
    (quoteResponseWire q (handler q).1 (handler q).2)) =
    emittedOf s ++ [("quote_response", quoteResponseWire q (handler q).1 (handler q).2)]
  rw [sendQuote_emitted { s with pending := s.pending.eraseIdx i } c _ hconn hsio]
  rfl

/-- Witness for C4 at a concrete connected state with one pending quote. -/
theorem c4_response_id_matches_witness :
    exPendingState.connected = true ∧ exPendingState.sio = some freshSio ∧
    exPendingState.pending[0]? = some exQuote ∧
    (emittedOf (completeHandler mmHandler exPendingState 0) =
      emittedOf exPendingState ++
        [("quote_response",
          quoteResponseWire exQuote (mmHandler exQuote).1 (mmHandler exQuote).2)] ∧
     quoteResponseWire exQuote (mmHandler exQuote).1 (mmHandler exQuote).2 =
       [("id", exQuote.id), ("intermediate_amount", (mmHandler exQuote).1),
        ("egress_amount", (mmHandler exQuote).2)] ∧
     jsonGet (quoteResponseWire exQuote (mmHandler exQuote).1 (mmHandler exQuote).2) "id" =
       some exQuote.id) :=
  ⟨rfl, rfl, rfl,
   c4_response_id_matches mmHandler exPendingState freshSio 0 exQuote rfl rfl rfl⟩

/-- C5: receipt of a further `quote_request` is never blocked by an
in-progress handler: with a handler still in flight, receiving the next
well-formed event always succeeds, keeps the first handler in flight and
adds the second, so both are concurrently pending; the session state is
otherwise untouched.  (Per-event task dispatch is the socketio library's
behaviour, modelled from the spec.) -/
theorem c5_receipt_not_blocked (s : QuoterState) (d : List (String × String))
    (q1 q2 : Quote) (hp : q1 ∈ s.pending) (hd : decodeQuote d = .ok q2) :
    (receiveQuoteRequest s d).pending = s.pending ++ [q2] ∧
    q1 ∈ (receiveQuoteRequest s d).pending ∧
    q2 ∈ (receiveQuoteRequest s d).pending ∧
    (receiveQuoteRequest s d).connected = s.connected ∧
    emittedOf (receiveQuoteRequest s d) = emittedOf s := by
  have hpend : (receiveQuoteRequest s d).pending = s.pending ++ [q2] := by
    unfold receiveQuoteRequest
    rw [hd]
  refine ⟨hpend, ?_, ?_, receiveQuoteRequest_connected s d, ?_⟩
  · rw [hpend]
    exact List.mem_append_left _ hp
  · rw [hpend]
    exact List.mem_append_right _ (List.mem_singleton.mpr rfl)
  · unfold emittedOf
    rw [receiveQuoteRequest_sio]

/-- Witness for C5: with the handler for `exQuote` in flight, the receipt
of `exGoodData2` leaves both quotes concurrently pending. -/
theorem c5_receipt_not_blocked_witness :
    exQuote ∈ exPendingState.pending ∧ decodeQuote exGoodData2 = .ok exQuote2 ∧
    ((receiveQuoteRequest exPendingState exGoodData2).pending =
        exPendingState.pending ++ [exQuote2] ∧
      exQuote ∈ (receiveQuoteRequest exPendingState exGoodData2).pending ∧
      exQuote2 ∈ (receiveQuoteRequest exPendingState exGoodData2).pending ∧
      (receiveQuoteRequest exPendingState exGoodData2).connected =
        exPendingState.connected ∧
      emittedOf (receiveQuoteRequest exPendingState exGoodData2) =
        emittedOf exPendingState) :=
  ⟨List.mem_singleton.mpr rfl, rfl,
   c5_receipt_not_blocked exPendingState exGoodData2 exQuote exQuote2
     (List.mem_singleton.mpr rfl) rfl⟩

/-- C9: the `on_connect` hook runs exactly once per successful connect,
synchronously inside the channel's `connect` event: that event appends
exactly one hook invocation, recorded with `connected` already `true`,
while no quote is handled and nothing is emitted during it; over any
event trace the number of hook invocations equals the number of
`connect` events, every one recorded with `connected = true`. -/
theorem c9_on_connect_once (handler : Quote → String × String) (s : QuoterState)
    (evs : List Ev) :
    (connectEventStep s).hookLog = s.hookLog ++ [true] ∧
    (connectEventStep s).connected = true ∧
    emittedOf (connectEventStep s) = emittedOf s ∧
    (connectEventStep s).pending = s.pending ∧
    (run handler s evs).hookLog =
      s.hookLog ++ List.replicate (evs.countP isConnectEv) true :=
  ⟨rfl, rfl, rfl, rfl, run_hookLog handler evs s⟩

end Quoting

namespace Quoting

/-! ## Injectivity of the signed byte string in the timestamp (for C8) -/

theorem digitChar_ascii : ∀ d < 10, (Nat.digitChar d).toNat < 128 := by decide

theorem digitChar_toNat_inj :
    ∀ a < 10, ∀ b < 10, (Nat.digitChar a).toNat = (Nat.digitChar b).toNat → a = b := by
  decide

theorem digitChar_toNat_eq_48 : ∀ d < 10, (Nat.digitChar d).toNat = 48 → d = 0 := by
  decide

theorem utf8CharBytes_ascii (c : Char) (h : c.toNat < 128) :
    utf8CharBytes c = [c.toNat] := by
  simp [utf8CharBytes, h]

theorem flatMap_utf8_ascii (l : List Char) (h : ∀ c ∈ l, c.toNat < 128) :
    l.flatMap utf8CharBytes = l.map Char.toNat := by
  induction l with
  | nil => rfl
  | cons a l ih =>
      rw [List.flatMap_cons, List.map_cons,
        utf8CharBytes_ascii a (h a (List.mem_cons_self a l)),
        ih (fun c hc => h c (List.mem_cons_of_mem a hc))]
      rfl

/-- The UTF-8 bytes of the decimal string of `n`, digit chars being ASCII. -/
theorem strBytes_pyStr (n : Nat) :
    strBytes (pyStr n) =
      if n = 0 then [48]
      else ((Nat.digits 10 n).map (fun d => (Nat.digitChar d).toNat)).reverse := by
  by_cases h : n = 0
  · subst h
    rfl
  · rw [if_neg h]
    unfold pyStr strBytes
    rw [if_neg h]
    have hall : ∀ c ∈ ((Nat.digits 10 n).map Nat.digitChar).reverse, c.toNat < 128 := by
      intro c hc
      rw [List.mem_reverse] at hc
      obtain ⟨d, hd, rfl⟩ := List.mem_map.mp hc
      exact digitChar_ascii d (Nat.digits_lt_base (by norm_num) hd)
    rw [show (String.mk (((Nat.digits 10 n).map Nat.digitChar).reverse)).data =
        ((Nat.digits 10 n).map Nat.digitChar).reverse from rfl]
    rw [flatMap_utf8_ascii _ hall, List.map_reverse, List.map_map]
    rfl

theorem digitBytes_inj (l1 : List Nat) :
    ∀ l2 : List Nat, (∀ d ∈ l1, d < 10) → (∀ d ∈ l2, d < 10) →
      l1.map (fun d => (Nat.digitChar d).toNat) =
        l2.map (fun d => (Nat.digitChar d).toNat) → l1 = l2 := by
  induction l1 with
  | nil =>
      intro l2 _ _ he
      cases l2 with
      | nil => rfl
      | cons b m => simp at he
  | cons a l ih =>
      intro l2 h1 h2 he
      cases l2 with
      | nil => simp at he
      | cons b m =>
          simp only [List.map_cons, List.cons.injEq] at he
          have hab := digitChar_toNat_inj a (h1 a (List.mem_cons_self a l)) b
            (h2 b (List.mem_cons_self b m)) he.1
          subst hab
          rw [ih m (fun d hd => h1 d (List.mem_cons_of_mem a hd))
            (fun d hd => h2 d (List.mem_cons_of_mem a hd)) he.2]

theorem digits_map_ne_single48 (t : Nat) (ht : t ≠ 0)
    (h : (Nat.digits 10 t).map (fun d => (Nat.digitChar d).toNat) = [48]) : False := by
  cases hl : Nat.digits 10 t with
  | nil => rw [hl] at h; simp at h
  | cons d ds =>
      rw [hl] at h
      simp only [List.map_cons, List.cons.injEq] at h
      obtain ⟨hd48, hds⟩ := h
      have hds' : ds = [] := by
        cases ds with
        | nil => rfl
        | cons x xs => simp at hds
      have hd10 : d < 10 :=
        Nat.digits_lt_base (by norm_num) (by rw [hl]; exact List.mem_cons_self d ds)
      have hd0 : d = 0 := digitChar_toNat_eq_48 d hd10 hd48
      have hdig : Nat.digits 10 t = [0] := by rw [hl, hd0, hds']
      have ht0 : t = 0 := by
        have ho := Nat.ofDigits_digits 10 t
        rw [hdig] at ho
        simpa [Nat.ofDigits_singleton] using ho.symm
      exact ht ht0

/-- Distinct non-negative timestamps have distinct UTF-8 decimal byte
strings. -/
theorem strBytes_pyStr_inj (t1 t2 : Nat)
    (h : strBytes (pyStr t1) = strBytes (pyStr t2)) : t1 = t2 := by
  rw [strBytes_pyStr, strBytes_pyStr] at h
  by_cases h1 : t1 = 0 <;> by_cases h2 : t2 = 0
  · rw [h1, h2]
  · rw [if_pos h1, if_neg h2] at h
    exfalso
    have h' : ((Nat.digits 10 t2).map (fun d => (Nat.digitChar d).toNat)).reverse =
        ([48] : List Nat).reverse := h.symm
    exact digits_map_ne_single48 t2 h2 (List.reverse_injective h')
  · rw [if_neg h1, if_pos h2] at h
    exfalso
    have h' : ((Nat.digits 10 t1).map (fun d => (Nat.digitChar d).toNat)).reverse =
        ([48] : List Nat).reverse := h
    exact digits_map_ne_single48 t1 h1 (List.reverse_injective h')
  · rw [if_neg h1, if_neg h2] at h
    have hm := List.reverse_injective h
    have hdig := digitBytes_inj (Nat.digits 10 t1) (Nat.digits 10 t2)
      (fun d hd => Nat.digits_lt_base (by norm_num) hd)
      (fun d hd => Nat.digits_lt_base (by norm_num) hd) hm
    exact Nat.digits.injective 10 hdig

/-- C8: for a fixed identity and fixed key, with the deterministic signing
primitive injective on messages, two connect attempts at distinct
timestamps sign distinct byte concatenations `identity || str(t)` — and
hence produce distinct signatures. -/
theorem c8_distinct_timestamps (mmid : String) (k : SigKey)
    (sign : SigKey → List Nat → List Nat) (hinj : Function.Injective (sign k))
    (t1 t2 : Nat) (hne : t1 ≠ t2) :
    signedPayloadBytes mmid t1 ≠ signedPayloadBytes mmid t2 ∧
    sign k (signedPayloadBytes mmid t1) ≠ sign k (signedPayloadBytes mmid t2) := by
  have hb : signedPayloadBytes mmid t1 ≠ signedPayloadBytes mmid t2 := by
    intro he
    apply hne
    unfold signedPayloadBytes percentBB at he
    exact strBytes_pyStr_inj t1 t2 (List.append_cancel_left he)
  exact ⟨hb, fun he => hb (hinj he)⟩

/-- Witness for C8: identity `"mm1"`, the identity signing primitive, and
the timestamps 0 and 1. -/
theorem c8_distinct_timestamps_witness :
    (0 : Nat) ≠ 1 ∧
    (signedPayloadBytes "mm1" 0 ≠ signedPayloadBytes "mm1" 1 ∧
     exSign 0 (signedPayloadBytes "mm1" 0) ≠ exSign 0 (signedPayloadBytes "mm1" 1)) :=
  ⟨by decide,
   c8_distinct_timestamps "mm1" 0 exSign (by intro a b hab; exact hab) 0 1 (by decide)⟩

end Quoting
